import Mathlib

/-!
Verification development for the CHAD repo-auditor core
(`.github/scripts/repo_auditor.py`): staleness evaluation, repository
classification with burn-rate estimation, third-party service detection,
the four per-repo auditors, and the API-call budget.

Timestamps are modelled as Unix seconds (`Int`).  Python's
`(now - last_push).days` is the floor of the elapsed seconds over 86400,
which is `Int.ediv` (Lean's `/` on `Int`).  Python `dict`s whose keys are
inserted programmatically are modelled as insertion-ordered association
lists where inserting an existing key overwrites it in place.  A Python
function that may receive a missing/None value takes an `Option` here.
-/

namespace RepoAuditor

/-- Staleness thresholds (`STALE_DAYS = 180`). -/
def STALE_DAYS : Int := 180

/-- `DEAD_DAYS = 365 * 2`. -/
def DEAD_DAYS : Int := 365 * 2

/-- Token budget per audit run (`MAX_API_CALLS = 300`). -/
def MAX_API_CALLS : Nat := 300

/-- Cloud Run scale-to-zero base cost. -/
def CLOUD_RUN_IDLE_BASE : Int := 0

/-- Cloud Run occasional-activity base cost. -/
def CLOUD_RUN_ACTIVE_BASE : Int := 3

/-- GitHub Actions CI base cost (free tier). -/
def GH_ACTIONS_CI_BASE : Int := 0

/-- The static core-repo allowlist (`CORE_REPOS`). -/
def CORE_REPOS : List String :=
  ["ArchitectAIPro", "ArchitectAIPro_GHActions", "clipstream",
   "ProposalBuddyAI", "polymath-hub", "BlueFalconInkLanding",
   "videogamedev", "Afterword", "BlueFalconInk"]

/-- Result record of `audit_staleness` (the free-text `last_push` echo is
elided; it is the unchanged input string). -/
structure StalenessResult where
  days_since_push : Int
  status : String
  recommendation : String
deriving DecidableEq, Repr

/-- `audit_staleness`: `days_since = (now - last_push).days`, then the
threshold chain `> DEAD_DAYS` / `> STALE_DAYS` / `> 90`.  `pushSec` is the
parsed `pushed_at` in Unix seconds, `nowSec` the current time. -/
def audit_staleness (pushSec nowSec : Int) : StalenessResult :=
  let days_since : Int := (nowSec - pushSec) / 86400
  if days_since > DEAD_DAYS then
    { days_since_push := days_since, status := "DEAD",
      recommendation := "DELETE or ARCHIVE" }
  else if days_since > STALE_DAYS then
    { days_since_push := days_since, status := "STALE",
      recommendation := "ARCHIVE" }
  else if days_since > 90 then
    { days_since_push := days_since, status := "DORMANT",
      recommendation := "REVIEW" }
  else
    { days_since_push := days_since, status := "ACTIVE",
      recommendation := "KEEP" }

/-- The fields of the GitHub repo record that `classify_repo` reads:
`repo["name"]`, `repo.get("fork", ...)`, `repo.get("archived", ...)`,
`repo.get("size", ...)` (disk KB). -/
structure RepoRecord where
  name : String
  fork : Bool
  archived : Bool
  size : Nat
deriving DecidableEq, Repr

/-- One entry of `service_details` as built by
`detect_third_party_services`. -/
structure ServiceDetail where
  service : String
  label : String
  cost : Int
  category : String
deriving DecidableEq, Repr

/-- The dict returned by `detect_third_party_services` and consumed by
`classify_repo`. -/
structure Services where
  services : List String
  service_details : List ServiceDetail
  third_party_cost : Int
deriving DecidableEq, Repr

/-- The empty `services` dict (`{}` / fetch-nothing default). -/
def emptyServices : Services :=
  { services := [], service_details := [], third_party_cost := 0 }

/-- Python-dict assignment `d[k] = v` on an insertion-ordered association
list: overwrite in place when the key exists, append otherwise. -/
def dictInsert (d : List (String × Int)) (k : String) (v : Int) :
    List (String × Int) :=
  if d.any (fun p => p.1 = k) then
    d.map (fun p => if p.1 = k then (k, v) else p)
  else
    d ++ [(k, v)]

/-- The priority-ordered tier/action decision chain of `classify_repo`. -/
def tierAction (repo : RepoRecord) (staleness : StalenessResult) :
    String × String :=
  if repo.archived then ("ARCHIVED", "NONE")
  else if CORE_REPOS.contains repo.name then ("CORE", "MAINTAIN")
  else if repo.fork ∧ (staleness.status = "DEAD" ∨ staleness.status = "STALE")
    then ("LEGACY_FORK", "DELETE")
  else if repo.fork then ("FORK", "REVIEW")
  else if staleness.status = "DEAD" then ("DEAD", "ARCHIVE_OR_DELETE")
  else if staleness.status = "STALE" then ("STALE", "ARCHIVE")
  else if staleness.status = "DORMANT" then ("DORMANT", "REVIEW")
  else ("ACTIVE", "MAINTAIN")

/-- The `burn_breakdown` dict built by `classify_repo`: only tiers
CORE/ACTIVE/DORMANT accrue cost; "Cloud Run" and "CI/CD" baselines first,
then each detected service with cost > 0 keyed by its label. -/
def burnBreakdown (staleness : StalenessResult)
    (svc_details : List ServiceDetail) (tier : String) :
    List (String × Int) :=
  if tier = "CORE" ∨ tier = "ACTIVE" ∨ tier = "DORMANT" then
    let bb := dictInsert [] ("Cloud Run")
      (if staleness.days_since_push < 30 then CLOUD_RUN_ACTIVE_BASE
       else CLOUD_RUN_IDLE_BASE)
    let bb := dictInsert bb ("CI/CD") GH_ACTIONS_CI_BASE
    svc_details.foldl
      (fun acc svc =>
        if svc.cost > 0 then dictInsert acc svc.label svc.cost else acc)
      bb
  else []

/-- `round(disk_kb / 1024, 1)` expressed in tenths of a MB: round half to
even on the exact rational `disk_kb * 10 / 1024` (the binary-float
double-rounding artifact of the Python original is not modelled; no claim
depends on the rounded value). -/
def diskMbTenths (disk_kb : Nat) : Nat :=
  let n := disk_kb * 10
  let q := n / 1024
  let r := n % 1024
  if 1024 < 2 * r then q + 1
  else if 2 * r < 1024 then q
  else if q % 2 = 0 then q else q + 1

/-- The dict returned by `classify_repo` (`disk_mb` held in tenths of a
MB, see `diskMbTenths`). -/
structure Classification where
  tier : String
  action : String
  monthly_burn_estimate : Int
  burn_breakdown : List (String × Int)
  disk_mb : Nat
deriving DecidableEq, Repr

/-- `classify_repo(repo, staleness, services)`.  The Python body binds
`third_party = services.get("third_party_cost", 0)` but never uses it; the
dead binding is kept. -/
def classify_repo (repo : RepoRecord) (staleness : StalenessResult)
    (services : Services) : Classification :=
  let ta := tierAction repo staleness
  let _third_party := services.third_party_cost
  let bb := burnBreakdown staleness services.service_details ta.1
  { tier := ta.1,
    action := ta.2,
    monthly_burn_estimate := (bb.map Prod.snd).sum,
    burn_breakdown := bb,
    disk_mb := diskMbTenths repo.size }

/-- First-match selection over a priority-ordered rule list; the default
for an empty list never fires because the last rule is always true. -/
def firstMatch : List (Bool × String × String) → String × String
  | [] => ("", "")
  | (c, t, a) :: rest => if c then (t, a) else firstMatch rest

/-- Modelled from the spec: the §4.4 priority list of tier rules, written
from the spec's words so `classify_repo` can be compared against it. -/
def tierRuleTable (repo : RepoRecord) (st : StalenessResult) :
    List (Bool × String × String) :=
  [ (repo.archived, "ARCHIVED", "NONE"),
    (CORE_REPOS.contains repo.name, "CORE", "MAINTAIN"),
    (repo.fork && (decide (st.status = "DEAD") || decide (st.status = "STALE")),
      "LEGACY_FORK", "DELETE"),
    (repo.fork, "FORK", "REVIEW"),
    (decide (st.status = "DEAD"), "DEAD", "ARCHIVE_OR_DELETE"),
    (decide (st.status = "STALE"), "STALE", "ARCHIVE"),
    (decide (st.status = "DORMANT"), "DORMANT", "REVIEW"),
    (true, "ACTIVE", "MAINTAIN") ]

/-- The eight tier/action pairs of the priority list. -/
def tierActionPairs : List (String × String) :=
  [("ARCHIVED", "NONE"), ("CORE", "MAINTAIN"), ("LEGACY_FORK", "DELETE"),
   ("FORK", "REVIEW"), ("DEAD", "ARCHIVE_OR_DELETE"), ("STALE", "ARCHIVE"),
   ("DORMANT", "REVIEW"), ("ACTIVE", "MAINTAIN")]

lemma tierAction_eq_firstMatch (repo : RepoRecord) (st : StalenessResult) :
    tierAction repo st = firstMatch (tierRuleTable repo st) := by
  simp only [tierAction, tierRuleTable, firstMatch]
  by_cases hA : (repo.archived : Prop) <;>
  by_cases hC : CORE_REPOS.contains repo.name = true <;>
  by_cases hF : (repo.fork : Prop) <;>
  by_cases hD : st.status = "DEAD" <;>
  by_cases hS : st.status = "STALE" <;>
  by_cases hDo : st.status = "DORMANT" <;>
  simp_all

lemma tierAction_mem_pairs (repo : RepoRecord) (st : StalenessResult) :
    tierAction repo st ∈ tierActionPairs := by
  simp only [tierAction, tierActionPairs]
  split_ifs <;> simp

end RepoAuditor

open RepoAuditor

/-- C1: for every repo record and staleness result (and any services
input), `classify_repo` assigns the tier/action pair selected by the first
matching rule of the fixed priority list (archived, core allowlist,
legacy fork, fork, dead, stale, dormant, active), and that pair is one of
the eight fixed tier/action pairs — exactly one tier with its paired
action. -/
theorem c1_tier_priority (repo : RepoRecord) (st : StalenessResult)
    (svc : Services) :
    ((classify_repo repo st svc).tier, (classify_repo repo st svc).action)
        = firstMatch (tierRuleTable repo st)
    ∧ ((classify_repo repo st svc).tier, (classify_repo repo st svc).action)
        ∈ tierActionPairs := by
  have hta : ((classify_repo repo st svc).tier,
      (classify_repo repo st svc).action) = tierAction repo st := rfl
  rw [hta]
  exact ⟨tierAction_eq_firstMatch repo st, tierAction_mem_pairs repo st⟩

namespace RepoAuditor

lemma dictInsert_nonneg {d : List (String × Int)} {k : String} {v : Int}
    (hd : ∀ p ∈ d, 0 ≤ p.2) (hv : 0 ≤ v) :
    ∀ p ∈ dictInsert d k v, 0 ≤ p.2 := by
  intro p hp
  unfold dictInsert at hp
  split at hp
  · rcases List.mem_map.1 hp with ⟨q, hq, hpq⟩
    by_cases hk : q.1 = k
    · simp only [hk, if_pos] at hpq
      simpa [← hpq] using hv
    · simp only [hk, if_neg, not_false_iff] at hpq
      exact hpq ▸ hd q hq
  · rcases List.mem_append.1 hp with h | h
    · exact hd p h
    · simp only [List.mem_singleton] at h
      simpa [h] using hv

lemma burn_foldl_nonneg (l : List ServiceDetail) :
    ∀ d : List (String × Int), (∀ p ∈ d, 0 ≤ p.2) →
    ∀ p ∈ l.foldl
        (fun acc svc =>
          if svc.cost > 0 then dictInsert acc svc.label svc.cost else acc) d,
      0 ≤ p.2 := by
  induction l with
  | nil => intro d hd; simpa using hd
  | cons svc rest ih =>
    intro d hd
    simp only [List.foldl_cons]
    apply ih
    by_cases hc : svc.cost > 0
    · simpa [hc] using dictInsert_nonneg hd (le_of_lt hc)
    · simpa [hc] using hd

lemma burnBreakdown_nonneg (st : StalenessResult)
    (svc_details : List ServiceDetail) (tier : String) :
    ∀ p ∈ burnBreakdown st svc_details tier, 0 ≤ p.2 := by
  unfold burnBreakdown
  split
  · apply burn_foldl_nonneg
    intro p hp
    by_cases hdays : st.days_since_push < 30 <;>
      simp_all [dictInsert, CLOUD_RUN_ACTIVE_BASE, CLOUD_RUN_IDLE_BASE,
        GH_ACTIONS_CI_BASE] <;>
      rcases hp with h | h <;> simp [h]
  · intro p hp
    simp at hp

lemma burnBreakdown_empty_of_not_deep (st : StalenessResult)
    (svc_details : List ServiceDetail) (tier : String)
    (h : ¬ (tier = "CORE" ∨ tier = "ACTIVE" ∨ tier = "DORMANT")) :
    burnBreakdown st svc_details tier = [] := by
  unfold burnBreakdown
  exact if_neg h

end RepoAuditor

/-- C2: on every input, `classify_repo` returns a
`monthly_burn_estimate` equal to the sum of the values of the returned
`burn_breakdown`, the estimate is non-negative, and whenever the returned
tier is outside {CORE, ACTIVE, DORMANT} the estimate is 0 with an empty
breakdown. -/
theorem c2_burn_consistency (repo : RepoRecord) (st : StalenessResult)
    (svc : Services) :
    (classify_repo repo st svc).monthly_burn_estimate
        = (((classify_repo repo st svc).burn_breakdown).map Prod.snd).sum
    ∧ 0 ≤ (classify_repo repo st svc).monthly_burn_estimate
    ∧ (¬ ((classify_repo repo st svc).tier = "CORE"
          ∨ (classify_repo repo st svc).tier = "ACTIVE"
          ∨ (classify_repo repo st svc).tier = "DORMANT") →
        (classify_repo repo st svc).monthly_burn_estimate = 0
        ∧ (classify_repo repo st svc).burn_breakdown = []) := by
  refine ⟨rfl, ?_, ?_⟩
  · apply List.sum_nonneg
    intro x hx
    rcases List.mem_map.1 hx with ⟨p, hp, rfl⟩
    exact burnBreakdown_nonneg st svc.service_details
      (tierAction repo st).1 p hp
  · intro h
    have hbb : (classify_repo repo st svc).burn_breakdown = [] :=
      burnBreakdown_empty_of_not_deep st svc.service_details
        (tierAction repo st).1 h
    constructor
    · show (((classify_repo repo st svc).burn_breakdown).map Prod.snd).sum = 0
      rw [hbb]; rfl
    · exact hbb

/-- Witness for C2: a concrete archived repo discharges the hypothesis of
the third conjunct — its tier is ARCHIVED, so burn is 0 with an empty
breakdown. -/
theorem c2_burn_consistency_witness :
    (classify_repo (⟨"scratch", false, true, 512⟩ : RepoRecord)
        (audit_staleness 0 0) emptyServices).monthly_burn_estimate = 0
    ∧ (classify_repo (⟨"scratch", false, true, 512⟩ : RepoRecord)
        (audit_staleness 0 0) emptyServices).burn_breakdown = [] :=
  (c2_burn_consistency (⟨"scratch", false, true, 512⟩ : RepoRecord)
    (audit_staleness 0 0) emptyServices).2.2 (by decide)

namespace RepoAuditor

lemma audit_staleness_days (pushSec nowSec : Int) :
    (audit_staleness pushSec nowSec).days_since_push
      = (nowSec - pushSec) / 86400 := by
  simp only [audit_staleness]
  split_ifs <;> rfl

/-- Freshness order on staleness status strings:
ACTIVE < DORMANT < STALE < DEAD. -/
def statusRank (s : String) : Nat :=
  if s = "ACTIVE" then 0
  else if s = "DORMANT" then 1
  else if s = "STALE" then 2
  else 3

end RepoAuditor

/-- C5: for every parseable timestamp and current-time reference (given
here in Unix seconds), `audit_staleness` returns `days_since_push` equal
to the floor of the elapsed whole days — characterised by
`d * 86400 ≤ elapsed < (d + 1) * 86400` — and the status is DEAD when
`days_since_push > 730`, else STALE when `> 180`, else DORMANT when
`> 90`, else ACTIVE. -/
theorem c5_staleness_algorithm (pushSec nowSec : Int) :
    ((audit_staleness pushSec nowSec).days_since_push * 86400
        ≤ nowSec - pushSec
      ∧ nowSec - pushSec
        < ((audit_staleness pushSec nowSec).days_since_push + 1) * 86400)
    ∧ (audit_staleness pushSec nowSec).status =
        (if (audit_staleness pushSec nowSec).days_since_push > 730 then
          "DEAD"
        else if (audit_staleness pushSec nowSec).days_since_push > 180 then
          "STALE"
        else if (audit_staleness pushSec nowSec).days_since_push > 90 then
          "DORMANT"
        else "ACTIVE") := by
  constructor
  · rw [audit_staleness_days]
    exact ⟨Int.ediv_mul_le (nowSec - pushSec) (by norm_num),
      Int.lt_ediv_add_one_mul_self (nowSec - pushSec) (by norm_num)⟩
  · simp only [audit_staleness, DEAD_DAYS, STALE_DAYS]
    norm_num
    split_ifs <;> simp_all

/-- C8 counterexample: a `pushed_at` one hour in the future of "now"
gives `days_since_push = -1`, a negative value, refuting the claim that
`days_since_push ≥ 0` holds for every valid timestamp including ones
later than the current-time reference. -/
theorem c8_future_timestamp_negative :
    (audit_staleness 3600 0).days_since_push = -1
    ∧ ¬ (0 ≤ (audit_staleness 3600 0).days_since_push) := by
  decide

/-- C8 (amended): for every valid timestamp that is not later than the
current-time reference, `audit_staleness` returns `days_since_push ≥ 0`. -/
theorem c8_days_nonneg (pushSec nowSec : Int) (h : pushSec ≤ nowSec) :
    0 ≤ (audit_staleness pushSec nowSec).days_since_push := by
  rw [RepoAuditor.audit_staleness_days]
  exact Int.ediv_nonneg (by linarith) (by norm_num)

/-- Witness for C8's amended theorem at a concrete push one day before
now. -/
theorem c8_days_nonneg_witness :
    (0 : Int) ≤ 86400
    ∧ 0 ≤ (audit_staleness 0 86400).days_since_push :=
  ⟨by decide, c8_days_nonneg 0 86400 (by decide)⟩

/-- C9: for timestamps t1 < t2, both at or before the same "now", the
status computed for the older t1 is never strictly fresher (in the order
ACTIVE < DORMANT < STALE < DEAD) than the status computed for t2. -/
theorem c9_staleness_monotone (t1 t2 nowSec : Int) (h12 : t1 < t2)
    (_h2 : t2 ≤ nowSec) :
    statusRank ((audit_staleness t2 nowSec).status)
      ≤ statusRank ((audit_staleness t1 nowSec).status) := by
  have hd : (nowSec - t2) / 86400 ≤ (nowSec - t1) / 86400 :=
    Int.ediv_le_ediv (by norm_num) (by linarith)
  simp only [audit_staleness, DEAD_DAYS, STALE_DAYS] at *
  split_ifs <;> simp_all [statusRank] <;> omega

/-- Witness for C9 at t1 = 0 (DEAD at 1000 days), t2 = 800 days before
now (DEAD as well). -/
theorem c9_staleness_monotone_witness :
    ((0 : Int) < 17280000 ∧ (17280000 : Int) ≤ 86400000)
    ∧ statusRank ((audit_staleness 17280000 86400000).status)
        ≤ statusRank ((audit_staleness 0 86400000).status) :=
  ⟨by decide, c9_staleness_monotone 0 17280000 86400000 (by decide)
    (by decide)⟩

namespace RepoAuditor

/-- The budget guard at the top of `api_get`: increment the shared
`api_call_count`, then return None without issuing a request when the
incremented count exceeds `MAX_API_CALLS`.  Result: (new counter value,
whether a remote request is issued). -/
def api_get_budget (api_call_count : Nat) : Nat × Bool :=
  let api_call_count := api_call_count + 1
  if api_call_count > MAX_API_CALLS then (api_call_count, false)
  else (api_call_count, true)

/-- The identical budget guard at the top of `api_get_text`. -/
def api_get_text_budget (api_call_count : Nat) : Nat × Bool :=
  let api_call_count := api_call_count + 1
  if api_call_count > MAX_API_CALLS then (api_call_count, false)
  else (api_call_count, true)

/-- A run issues a sequence of calls, each through `api_get` (true) or
`api_get_text` (false), threading the shared counter; returns how many
remote requests were actually issued. -/
def issuedRequests : List Bool → Nat → Nat
  | [], _ => 0
  | which :: rest, count =>
    let step :=
      if which then api_get_budget count else api_get_text_budget count
    (if step.2 then 1 else 0) + issuedRequests rest step.1

lemma issuedRequests_le (calls : List Bool) :
    ∀ count : Nat, issuedRequests calls count ≤ MAX_API_CALLS - count := by
  induction calls with
  | nil => intro c; simp [issuedRequests]
  | cons w rest ih =>
    intro c
    have hstep : (if w then api_get_budget c else api_get_text_budget c)
        = api_get_budget c := by cases w <;> rfl
    simp only [issuedRequests]
    rw [hstep]
    simp only [api_get_budget]
    have h := ih (c + 1)
    simp only [MAX_API_CALLS, gt_iff_lt] at h ⊢
    by_cases hc : 300 < c + 1
    · simp [hc]
      omega
    · simp [hc]
      omega

end RepoAuditor

/-- C4: in any run, the number of remote requests actually issued through
`api_get` and `api_get_text` is at most `MAX_API_CALLS`, because each
call increments the shared counter and checks it before issuing a
request; and once the counter has reached the ceiling, every further call
of either function returns None without issuing a request. -/
theorem c4_budget_enforcement :
    (∀ calls : List Bool, issuedRequests calls 0 ≤ MAX_API_CALLS)
    ∧ (∀ count : Nat, MAX_API_CALLS ≤ count →
        (api_get_budget count).2 = false
        ∧ (api_get_text_budget count).2 = false) := by
  constructor
  · intro calls
    simpa using issuedRequests_le calls 0
  · intro c hc
    have h1 : c + 1 > MAX_API_CALLS := by omega
    constructor <;>
      simp only [api_get_budget, api_get_text_budget, if_pos h1]

/-- Witness for C4: a concrete two-call run stays within budget, and a
counter already at the ceiling (300) makes both call paths refuse. -/
theorem c4_budget_enforcement_witness :
    issuedRequests [true, false] 0 ≤ MAX_API_CALLS
    ∧ (MAX_API_CALLS ≤ 300
        ∧ (api_get_budget 300).2 = false
        ∧ (api_get_text_budget 300).2 = false) :=
  ⟨c4_budget_enforcement.1 [true, false],
    by decide,
    (c4_budget_enforcement.2 300 (by decide)).1,
    (c4_budget_enforcement.2 300 (by decide)).2⟩

namespace RepoAuditor

/-- The fallback `run_audit` uses for a missing `pushed_at`:
`repo.get("pushed_at", "2000-01-01T00:00:00Z")`. -/
def DEFAULT_PUSHED_AT : String := "2000-01-01T00:00:00Z"

/-- How `run_audit` obtains the timestamp handed to `audit_staleness`: a
missing `pushed_at` is silently replaced by the fixed default date. -/
def get_pushed_at (pushed_at : Option String) : String :=
  pushed_at.getD DEFAULT_PUSHED_AT

/-- Unix seconds of 2000-01-01T00:00:00Z, the parse of the default. -/
def DEFAULT_PUSHED_AT_SEC : Int := 946684800

end RepoAuditor

/-- C3 (the code evaluated at the failing input): a repo record with no
`pushed_at` is silently given the fixed default date 2000-01-01T00:00:00Z
instead of any invalid-timestamp error, and evaluating the staleness of
that guessed date at a 2026-10-12 "now" (Unix seconds 1760227200)
classifies the repo DEAD — the very masking the claim forbids. -/
theorem c3_missing_timestamp_defaulted :
    get_pushed_at none = DEFAULT_PUSHED_AT
    ∧ get_pushed_at (some ("2024-01-01T00:00:00Z")) = "2024-01-01T00:00:00Z"
    ∧ (audit_staleness DEFAULT_PUSHED_AT_SEC 1760227200).status = "DEAD"
    ∧ (audit_staleness DEFAULT_PUSHED_AT_SEC 1760227200).days_since_push
        = 9416 := by
  refine ⟨rfl, rfl, ?_, ?_⟩ <;> decide

/-- C10: `classify_repo` never reads the `third_party_cost` field of its
services argument (the Python binding of it is dead code): two services
inputs with equal `service_details` yield identical classifications —
tier, action, burn breakdown, burn estimate and disk size all agree. -/
theorem c10_third_party_cost_unused (repo : RepoRecord)
    (st : StalenessResult) (s1 s2 : Services)
    (h : s1.service_details = s2.service_details) :
    classify_repo repo st s1 = classify_repo repo st s2 := by
  simp only [classify_repo, h]

/-- Witness for C10: two services values differing only in
`third_party_cost` (0 vs 999) classify identically. -/
theorem c10_third_party_cost_unused_witness :
    ((⟨[], [], 0⟩ : Services).service_details
        = (⟨[], [], 999⟩ : Services).service_details)
    ∧ classify_repo (⟨"web-app", false, false, 100⟩ : RepoRecord)
        (audit_staleness 0 0) (⟨[], [], 0⟩ : Services)
      = classify_repo (⟨"web-app", false, false, 100⟩ : RepoRecord)
        (audit_staleness 0 0) (⟨[], [], 999⟩ : Services) :=
  ⟨rfl, c10_third_party_cost_unused _ _ _ _ rfl⟩

namespace RepoAuditor

/-- Bool prefix test on char lists. -/
def isPrefixChars : List Char → List Char → Bool
  | [], _ => true
  | _ :: _, [] => false
  | a :: as, b :: bs => a == b && isPrefixChars as bs

/-- Python substring containment `pat in s` on char lists. -/
def containsChars (pat : List Char) : List Char → Bool
  | [] => isPrefixChars pat []
  | c :: cs => isPrefixChars pat (c :: cs) || containsChars pat cs

/-- Python `str.lower()` as a char list (ASCII case mapping; every
brand/service pattern in the source is ASCII). -/
def lowerChars (s : String) : List Char := s.toList.map Char.toLower

/-- Branding strings to check for (`BRAND_CORRECT`). -/
def BRAND_CORRECT : List String :=
  ["BlueFalconInk LLC", "BlueFalconInk", "bluefalconink"]

/-- Incorrect branding strings (`BRAND_INCORRECT`). -/
def BRAND_INCORRECT : List String :=
  ["Blue Falcon RC & Media", "Blue Falcon RC and Media",
   "BlueFalcon RC & Media", "bluefalcon rc", "@BlueFalconRCandMedia"]

/-- `files_to_check` of `audit_branding`. -/
def FILES_TO_CHECK : List String :=
  ["README.md", "package.json", "pyproject.toml", "LICENSE",
   "ARCHITECT_CONFIG.json"]

/-- One branding issue record `{file, found, fix}`. -/
structure BrandingIssue where
  file : String
  found : String
  fix : String
deriving DecidableEq, Repr

/-- The dict returned by `audit_branding`. -/
structure BrandingResult where
  files_checked : Nat
  issues : List BrandingIssue
  compliant : Bool
  has_branding : Bool
deriving DecidableEq, Repr

/-- `audit_branding`, with the per-file content fetch as an oracle
(`none` = fetch failed / file absent).  After the Python loop the local
`content` still holds the fetch result of the last filename, and
`has_branding` is computed from that (faithfully modelled). -/
def audit_branding (fetch : String → Option String) : BrandingResult :=
  let step := fun (acc : Nat × List BrandingIssue) (fname : String) =>
    match fetch fname with
    | none => acc
    | some content =>
      (acc.1 + 1,
       acc.2 ++ (BRAND_INCORRECT.filter
          (fun bad => containsChars (lowerChars bad) (lowerChars content))).map
          (fun bad =>
            { file := fname, found := bad,
              fix := "Replace " ++ bad ++ " with BlueFalconInk LLC" }))
  let fc := FILES_TO_CHECK.foldl step (0, [])
  let content := fetch ("ARCHITECT_CONFIG.json")
  { files_checked := fc.1,
    issues := fc.2,
    compliant := fc.2.length == 0,
    has_branding :=
      if fc.1 > 0 then
        BRAND_CORRECT.any
          (fun b => containsChars (lowerChars b) (lowerChars (content.getD "")))
      else false }

/-- `arch_files` of `audit_architecture`. -/
def ARCH_FILES : List String :=
  ["docs/architecture.md", "docs/architecture.mermaid",
   "docs/architecture.png", "docs/architecture.drawio",
   "ARCHITECT_CONFIG.json"]

/-- The dict returned by `audit_architecture`. -/
structure ArchitectureResult where
  files : List (String × Bool)
  has_workflow : Bool
  fully_configured : Bool
deriving DecidableEq, Repr

/-- `audit_architecture`, with the per-path existence probe and the
workflow-directory listing (names) as oracles; `none` = fetch failed. -/
def audit_architecture (found : String → Bool)
    (workflows : Option (List String)) : ArchitectureResult :=
  let files := ARCH_FILES.map (fun f => (f, found f))
  let has_workflow :=
    match workflows with
    | none => false
    | some wfs =>
      wfs.any (fun n =>
        containsChars (lowerChars ("architecture")) (lowerChars n))
  { files := files,
    has_workflow := has_workflow,
    fully_configured := files.all (fun p => p.2) && has_workflow }

/-- The dict returned by `audit_secrets`. -/
structure SecretsResult where
  secrets : List String
  has_gemini_key : Bool
  has_gcp_creds : Bool
deriving DecidableEq, Repr

/-- `audit_secrets`, with the secrets-listing call as an oracle (`none` =
call failed or payload lacked a `secrets` key). -/
def audit_secrets (fetched : Option (List String)) : SecretsResult :=
  let secret_names := fetched.getD []
  { secrets := secret_names,
    has_gemini_key := secret_names.contains ("GEMINI_API_KEY"),
    has_gcp_creds := secret_names.any (fun s =>
      containsChars ("GCP".toList) s.toList
        || containsChars ("GOOGLE".toList) s.toList) }

/-- One workflow run summary kept by `audit_workflows`. -/
structure RunRecord where
  name : String
  status : String
  conclusion : String
  created_at : String
deriving DecidableEq, Repr

/-- The parsed payload of the runs-listing call — present only when the
call succeeded and its JSON carried a `workflow_runs` key. -/
structure RunsPayload where
  total_count : Nat
  workflow_runs : List RunRecord
deriving DecidableEq, Repr

/-- The dict returned by `audit_workflows`.  Its failure path returns
only `total_runs` and `recent_runs`, so the two remaining fields are
`Option`s with `none` meaning the key is absent from the returned dict. -/
structure WorkflowsResult where
  total_runs : Nat
  recent_runs : List RunRecord
  recent_failures : Option Nat
  health : Option String
deriving DecidableEq, Repr

/-- `audit_workflows`, with the runs-listing call as an oracle. -/
def audit_workflows (fetched : Option RunsPayload) : WorkflowsResult :=
  match fetched with
  | none =>
    { total_runs := 0, recent_runs := [],
      recent_failures := none, health := none }
  | some result =>
    let runs := result.workflow_runs.take 5
    let failing := (runs.filter (fun r => r.conclusion == "failure")).length
    { total_runs := result.total_count,
      recent_runs := runs,
      recent_failures := some failing,
      health := some (if failing == 0 then "HEALTHY"
                      else if failing < 3 then "DEGRADED"
                      else "FAILING") }

end RepoAuditor

/-- C7 counterexample: on a fetch failure `audit_workflows` returns the
dict `{"total_runs": 0, "recent_runs": []}` — the health classification
and the failure-count keys are absent, refuting the claim that the
workflow-health result always contains them. -/
theorem c7_workflow_failure_omits_fields :
    (audit_workflows none).health = none
    ∧ (audit_workflows none).recent_failures = none :=
  ⟨rfl, rfl⟩

/-- C7 (amended): on total fetch failure each auditor still returns a
result record instead of aborting; branding, architecture and secrets
return complete default records with unknown/false/zero fields, while
`audit_workflows` returns only `total_runs = 0` and `recent_runs = []`,
omitting the health and failure-count fields. -/
theorem c7_auditor_failure_defaults :
    audit_branding (fun _ => none)
      = { files_checked := 0, issues := [], compliant := true,
          has_branding := false }
    ∧ audit_architecture (fun _ => false) none
      = { files := ARCH_FILES.map (fun f => (f, false)),
          has_workflow := false, fully_configured := false }
    ∧ audit_secrets none
      = { secrets := [], has_gemini_key := false, has_gcp_creds := false }
    ∧ audit_workflows none
      = { total_runs := 0, recent_runs := [],
          recent_failures := none, health := none } := by
  refine ⟨?_, ?_, ?_, ?_⟩ <;> rfl

namespace RepoAuditor

/-- `THIRD_PARTY_SERVICE_COSTS`: service key → (cost, label, category). -/
def THIRD_PARTY_SERVICE_COSTS : List (String × Int × String × String) :=
  [("supabase",    (25, "Supabase",        "BaaS")),
   ("firebase",    (25, "Firebase",        "BaaS")),
   ("planetscale", (29, "PlanetScale",     "Database")),
   ("neon",        (19, "Neon Postgres",   "Database")),
   ("upstash",     (5,  "Upstash Redis",   "Cache")),
   ("redis",       (5,  "Redis Cloud",     "Cache")),
   ("vercel",      (20, "Vercel",          "Hosting")),
   ("netlify",     (19, "Netlify",         "Hosting")),
   ("cloudflare",  (5,  "Cloudflare",      "CDN")),
   ("mux",         (20, "Mux Video",       "Media")),
   ("cloudinary",  (10, "Cloudinary",      "Media")),
   ("imgix",       (10, "imgix",           "Media")),
   ("stripe",      (0,  "Stripe",          "Payments")),
   ("auth0",       (0,  "Auth0",           "Auth")),
   ("clerk",       (25, "Clerk",           "Auth")),
   ("openai",      (20, "OpenAI API",      "AI")),
   ("anthropic",   (20, "Anthropic API",   "AI")),
   ("gemini",      (0,  "Gemini API",      "AI")),
   ("replicate",   (10, "Replicate",       "AI")),
   ("huggingface", (10, "Hugging Face",    "AI")),
   ("sentry",      (0,  "Sentry",          "Observability")),
   ("datadog",     (15, "Datadog",         "Observability")),
   ("circleci",    (15, "CircleCI",        "CI/CD")),
   ("sendgrid",    (0,  "SendGrid",        "Email")),
   ("resend",      (0,  "Resend",          "Email")),
   ("twilio",      (10, "Twilio",          "Communications")),
   ("suno",        (10, "Suno API",        "Audio"))]

/-- `SERVICE_DETECTION_PATTERNS`: service key → case-insensitive
substring patterns. -/
def SERVICE_DETECTION_PATTERNS : List (String × List String) :=
  [("supabase",    ["@supabase/", "supabase-py", "supabase-js", "supabase.co"]),
   ("firebase",    ["firebase-admin", "@firebase/", "firebaseConfig",
                    "google-cloud-firestore"]),
   ("planetscale", ["@planetscale/", "planetscale"]),
   ("neon",        ["@neondatabase/", "neon.tech"]),
   ("upstash",     ["@upstash/", "upstash-redis"]),
   ("redis",       ["redis", "ioredis", "aioredis", "redis-py"]),
   ("vercel",      ["@vercel/", "vercel.json", "VERCEL_", "vercel.app"]),
   ("netlify",     ["netlify.toml", "netlify-cli", "NETLIFY_"]),
   ("cloudflare",  ["cloudflare", "wrangler", "CLOUDFLARE_"]),
   ("mux",         ["@mux/", "mux-python", "mux.com", "MUX_TOKEN"]),
   ("cloudinary",  ["cloudinary", "CLOUDINARY_"]),
   ("imgix",       ["imgix"]),
   ("stripe",      ["stripe", "@stripe/", "STRIPE_"]),
   ("auth0",       ["@auth0/", "auth0-python", "AUTH0_"]),
   ("clerk",       ["@clerk/", "CLERK_"]),
   ("openai",      ["openai", "OPENAI_API_KEY"]),
   ("anthropic",   ["anthropic", "ANTHROPIC_API_KEY"]),
   ("gemini",      ["gemini", "GEMINI_API_KEY", "google-generativeai",
                    "@google/generative-ai"]),
   ("replicate",   ["replicate", "REPLICATE_"]),
   ("huggingface", ["huggingface", "transformers", "huggingface_hub"]),
   ("sentry",      ["@sentry/", "sentry-sdk", "SENTRY_DSN"]),
   ("datadog",     ["datadog", "ddtrace"]),
   ("circleci",    [".circleci"]),
   ("sendgrid",    ["sendgrid", "@sendgrid/", "SENDGRID_"]),
   ("resend",      ["resend"]),
   ("twilio",      ["twilio", "TWILIO_"]),
   ("suno",        ["suno"])]

/-- Code-point lexicographic order on char lists (Python string `<=`). -/
def charListLe : List Char → List Char → Bool
  | [], _ => true
  | _ :: _, [] => false
  | a :: as, b :: bs =>
    if a.val < b.val then true
    else if b.val < a.val then false
    else charListLe as bs

/-- Python string comparison. -/
def strLe (a b : String) : Bool := charListLe a.toList b.toList

/-- Insertion step of a stable ascending sort. -/
def insertSorted (x : String) : List String → List String
  | [] => [x]
  | y :: ys => if strLe x y then x :: y :: ys else y :: insertSorted x ys

/-- Python `sorted` on strings (insertion sort; the detected keys are
distinct, so stability is immaterial). -/
def sortStrings (l : List String) : List String := l.foldr insertSorted []

/-- `THIRD_PARTY_SERVICE_COSTS.get(svc_key, {})`. -/
def lookupCost (k : String) : Option (Int × String × String) :=
  (THIRD_PARTY_SERVICE_COSTS.find? (fun e => e.1 == k)).map (fun e => e.2)

/-- The static-table cost of a service key (0 when absent): the spec's
"static-table cost". -/
def tableCost (k : String) : Int :=
  match lookupCost k with
  | some info => info.1
  | none => 0

/-- One `service_details` entry as `detect_third_party_services` builds
it: `info.get("cost", 0)`, `info.get("label", svc_key)`,
`info.get("category", "Other")`. -/
def mkDetail (k : String) : ServiceDetail :=
  match lookupCost k with
  | some info =>
    { service := k, label := info.2.1, cost := info.1, category := info.2.2 }
  | none => { service := k, label := k, cost := 0, category := "Other" }

/-- The pattern scan of `detect_third_party_services`: a service key is
detected when any of its patterns occurs case-insensitively in the
corpus; keys come out in table order and are sorted afterwards. -/
def detectedKeys (corpus : String) : List String :=
  let corpus_lower := lowerChars corpus
  (SERVICE_DETECTION_PATTERNS.filter
    (fun kv => kv.2.any
      (fun pat => containsChars (lowerChars pat) corpus_lower))).map
    (fun kv => kv.1)

/-- The corpus → result core of `detect_third_party_services` (the
fetch-and-concatenate step that builds the corpus is network I/O; an empty
corpus short-circuits to the empty result exactly as `if not corpus`). -/
def detect_from_corpus (corpus : String) : Services :=
  if corpus = "" then
    { services := [], service_details := [], third_party_cost := 0 }
  else
    let keys := sortStrings (detectedKeys corpus)
    let details := keys.map mkDetail
    { services := keys,
      service_details := details,
      third_party_cost := (details.map (fun d => d.cost)).sum }

lemma mkDetail_cost (k : String) : (mkDetail k).cost = tableCost k := by
  unfold mkDetail tableCost
  cases lookupCost k <;> rfl

end RepoAuditor

/-- C6: for every corpus, the detector's `third_party_cost` equals the
sum of the static-table costs of the detected services; a corpus matching
exactly the supabase pattern "@supabase/" and the redis pattern "redis"
yields services [redis, supabase] with cost 25 + 5 = 30; and a zero-cost
service such as stripe appears in the services list while contributing
nothing to the sum. -/
theorem c6_third_party_cost_sum (corpus : String) :
    (detect_from_corpus corpus).third_party_cost
      = (((detect_from_corpus corpus).services).map tableCost).sum
    ∧ detect_from_corpus ("@supabase/ redis")
      = ⟨["redis", "supabase"],
         [⟨"redis", "Redis Cloud", 5, "Cache"⟩,
          ⟨"supabase", "Supabase", 25, "BaaS"⟩], 30⟩
    ∧ (detect_from_corpus ("stripe")).services = ["stripe"]
    ∧ (detect_from_corpus ("stripe")).third_party_cost = 0 := by
  refine ⟨?_, by decide, by decide, by decide⟩
  unfold detect_from_corpus
  split
  · rfl
  · simp only [List.map_map]
    congr 1
    apply List.map_congr_left
    intro k _
    exact mkDetail_cost k
